import Mathlib

/-!
Shallow embedding of the retry layer of `src/gdprclientlibrary.go`
(package `gdprclient`).

Modelling conventions:
* Durations (`time.Duration`) are exact rational nanosecond counts (ℚ);
  Go `float64` arithmetic in `calculateBackoff` is modelled exactly over ℚ
  (`math.Pow` with a natural exponent is iterated multiplication), and the
  final `time.Duration(backoff)` cast is absorbed into this exact model.
* A Go `error` value is modelled by `GoError`: the two `errors.Is` checks
  against `context.DeadlineExceeded` / `context.Canceled` become boolean
  fields, and `err.Error()` becomes the `msg` field.
* The transport (`c.httpClient.Do`) is an oracle `ℕ → TransportOutcome`
  giving the outcome of each attempt number; `rand.Float64()` is an oracle
  `ℕ → ℚ` giving the draw used on each attempt.
* `doRequestWithRetry` is run with fuel `(MaxRetries + 1).toNat`, the exact
  number of iterations the Go `for attempt := 0; attempt <= MaxRetries`
  loop can perform; the loop's observable behaviour is collected in a
  `RetryResult`: the final `resp` / `err` variables, the list of backoff
  waits actually slept (in order), the attempt indices whose response body
  the loop closed (line 247 of the source), and the number of transport
  calls made.
-/

/-- Model of a Go `error` as inspected by `ShouldRetry` (lines 179-187):
`isDeadlineExceeded` is `errors.Is(err, context.DeadlineExceeded)`,
`isCanceled` is `errors.Is(err, context.Canceled)`, and `msg` is
`err.Error()`. -/
structure GoError where
  isDeadlineExceeded : Bool
  isCanceled : Bool
  msg : String
  deriving DecidableEq, Repr

/-- The `"connection refused"` transport error. -/
def connectionRefused : GoError :=
  { isDeadlineExceeded := false, isCanceled := false, msg := "connection refused" }

/-- The part of an `http.Response` the retry loop inspects. -/
structure HttpResponse where
  statusCode : Int
  deriving DecidableEq, Repr

/-- Outcome of one `c.httpClient.Do` call: either a response (with `err == nil`)
or an error (with `resp == nil`). -/
inductive TransportOutcome where
  | ok (resp : HttpResponse)
  | err (e : GoError)
  deriving DecidableEq, Repr

/-- `RetryPolicy` (lines 29-35). `MaxRetries` is a Go `int`; the three
durations and factors are modelled over ℤ-free exact arithmetic: durations
as rational nanosecond counts, `BackoffFactor` and `Jitter` as rationals. -/
structure RetryPolicy where
  MaxRetries : Int
  InitialBackoff : ℚ
  MaxBackoff : ℚ
  BackoffFactor : ℚ
  Jitter : ℚ
  deriving DecidableEq, Repr

/-- One nanosecond is 1; `time.Millisecond` is 1e6 nanoseconds. -/
def millisecond : ℚ := 1000000

/-- `time.Second` is 1e9 nanoseconds. -/
def second : ℚ := 1000000000

/-- The network-error test of `ShouldRetry` (lines 179-187): a non-nil error
is retryable when it is `context.DeadlineExceeded`, `context.Canceled`, or
its `Error()` string is exactly `"connection refused"` or `"no such host"`. -/
def isRetryableNetErr : Option GoError → Bool
  | some e =>
      e.isDeadlineExceeded || e.isCanceled ||
        e.msg == "connection refused" || e.msg == "no such host"
  | none => false

/-- `ShouldRetry` (lines 177-200): retry on a retryable network error, on a
status code `>= 500` other than `501`, or on `429`. -/
def ShouldRetry (statusCode : Int) (err : Option GoError) : Bool :=
  if isRetryableNetErr err then true
  else if 500 ≤ statusCode ∧ statusCode ≠ 501 then true
  else if statusCode = 429 then true
  else false

/-- `calculateBackoff` (lines 203-219). `randFloat` is the value
`rand.Float64()` would return on this call (a rational in `[0, 1)`):
`backoff := InitialBackoff * BackoffFactor^attempt`; if `Jitter > 0`,
`backoff *= (1 + randFloat * Jitter)`; then cap at `MaxBackoff`. -/
def calculateBackoff (pol : RetryPolicy) (randFloat : ℚ) (attempt : Nat) : ℚ :=
  let backoff := pol.InitialBackoff * pol.BackoffFactor ^ attempt
  let backoff := if pol.Jitter > 0 then backoff * (1 + randFloat * pol.Jitter) else backoff
  if backoff > pol.MaxBackoff then pol.MaxBackoff else backoff

/-- Observable behaviour of one run of the `doRequestWithRetry` loop:
`resp` and `err` are the final values of the loop's two variables (returned
at line 260), `waits` the backoff durations slept (line 256, in order),
`closed` the attempt indices whose response body the loop closed (line 247,
in order), `attempts` the number of `c.httpClient.Do` calls made. -/
structure RetryResult where
  resp : Option HttpResponse
  err : Option GoError
  waits : List ℚ
  closed : List Nat
  attempts : Nat
  deriving DecidableEq, Repr

/-- The body of the `for attempt := 0; attempt <= MaxRetries` loop of
`doRequestWithRetry` (lines 226-257), with `fuel` remaining iterations.
Per iteration: call the transport; if `err == nil && statusCode < 500 &&
statusCode != 429` return the response (body left open, line 239);
otherwise, when a response exists its body is closed (line 247) and its
status is used, else the status is 0; break when `!ShouldRetry(status, err)
|| attempt >= MaxRetries` (line 250), returning the last `resp` / `err`;
otherwise sleep `calculateBackoff(attempt)` and continue. -/
def doRequestWithRetryGo (pol : RetryPolicy) (transport : Nat → TransportOutcome)
    (rand : Nat → ℚ) : Nat → Nat → RetryResult
  | _, 0 => { resp := none, err := none, waits := [], closed := [], attempts := 0 }
  | attempt, fuel + 1 =>
    match transport attempt with
    | .ok resp =>
      if resp.statusCode < 500 ∧ resp.statusCode ≠ 429 then
        { resp := some resp, err := none, waits := [], closed := [], attempts := 1 }
      else if ShouldRetry resp.statusCode none = false ∨ pol.MaxRetries ≤ (attempt : Int) then
        { resp := some resp, err := none, waits := [], closed := [attempt], attempts := 1 }
      else
        let rest := doRequestWithRetryGo pol transport rand (attempt + 1) fuel
        { resp := rest.resp, err := rest.err,
          waits := calculateBackoff pol (rand attempt) attempt :: rest.waits,
          closed := attempt :: rest.closed, attempts := rest.attempts + 1 }
    | .err e =>
      if ShouldRetry 0 (some e) = false ∨ pol.MaxRetries ≤ (attempt : Int) then
        { resp := none, err := some e, waits := [], closed := [], attempts := 1 }
      else
        let rest := doRequestWithRetryGo pol transport rand (attempt + 1) fuel
        { resp := rest.resp, err := rest.err,
          waits := calculateBackoff pol (rand attempt) attempt :: rest.waits,
          closed := rest.closed, attempts := rest.attempts + 1 }

/-- `doRequestWithRetry` (lines 222-261): run the loop from `attempt = 0`
with its maximal iteration count `(MaxRetries + 1).toNat`. -/
def doRequestWithRetry (pol : RetryPolicy) (transport : Nat → TransportOutcome)
    (rand : Nat → ℚ) : RetryResult :=
  doRequestWithRetryGo pol transport rand 0 (pol.MaxRetries + 1).toNat

/-- A single direct `c.httpClient.Do(req)` call with no retry loop, as used
by `FetchDeleteRequest` (line 488) and `UpdateDeleteRequest` (line 595). -/
def httpClientDo (transport : Nat → TransportOutcome) : RetryResult :=
  match transport 0 with
  | .ok resp => { resp := some resp, err := none, waits := [], closed := [], attempts := 1 }
  | .err e => { resp := none, err := some e, waits := [], closed := [], attempts := 1 }

/-- The thirteen CRUD operations of the client. -/
inductive ClientOp where
  | createInfoRequest
  | createDeleteRequest
  | fetchInfoRequest
  | fetchDeleteRequest
  | updateInfoRequest
  | updateDeleteRequest
  | deleteInfoRequest
  | deleteRequest
  | fetchAllInfoRequests
  | fetchInfoRequestsByType
  | fetchDeleteRequestsByStatus
  | fetchRequestsByCreator
  | fetchDeleteRequestsByCreator
  deriving DecidableEq, Repr

/-- How each CRUD operation issues its HTTP request, transcribed from its
one send call in the source: every operation calls
`c.doRequestWithRetry(req)` except `FetchDeleteRequest` (line 488) and
`UpdateDeleteRequest` (line 595), which call `c.httpClient.Do(req)`
directly. -/
def sendRequest (op : ClientOp) (pol : RetryPolicy) (transport : Nat → TransportOutcome)
    (rand : Nat → ℚ) : RetryResult :=
  match op with
  | .createInfoRequest => doRequestWithRetry pol transport rand      -- line 324
  | .createDeleteRequest => doRequestWithRetry pol transport rand    -- line 370
  | .fetchInfoRequest => doRequestWithRetry pol transport rand       -- line 427
  | .fetchDeleteRequest => httpClientDo transport                    -- line 488
  | .updateInfoRequest => doRequestWithRetry pol transport rand      -- line 549
  | .updateDeleteRequest => httpClientDo transport                   -- line 595
  | .deleteInfoRequest => doRequestWithRetry pol transport rand      -- line 641
  | .deleteRequest => doRequestWithRetry pol transport rand          -- line 687
  | .fetchAllInfoRequests => doRequestWithRetry pol transport rand   -- line 733
  | .fetchInfoRequestsByType => doRequestWithRetry pol transport rand    -- line 790
  | .fetchDeleteRequestsByStatus => doRequestWithRetry pol transport rand  -- line 847
  | .fetchRequestsByCreator => doRequestWithRetry pol transport rand     -- line 904
  | .fetchDeleteRequestsByCreator => doRequestWithRetry pol transport rand -- line 961

/-- `InfoRequest` (lines 121-129); `RequestType` models the Go field `Type`. -/
structure InfoRequest where
  PartitionKey : String
  RangeKey : String
  RequestType : String
  Status : String
  Created : String
  Modified : String
  CreatedBy : String
  deriving DecidableEq, Repr

/-- The Go zero value of `InfoRequest` (`var infoRequest InfoRequest`). -/
def zeroInfoRequest : InfoRequest :=
  { PartitionKey := "", RangeKey := "", RequestType := "", Status := "",
    Created := "", Modified := "", CreatedBy := "" }

/-- Response handling of `CreateInfoRequest` after `doRequestWithRetry`
succeeded, i.e. lines 330-348. `statusCode` is `resp.StatusCode`,
`readResult` the outcome of `io.ReadAll(resp.Body)`, and `unmarshalInfo`
models `json.Unmarshal` into an `InfoRequest`: `none` means the unmarshal
fails, in which case the Go variable keeps its zero value. At line 345 the
guard is `if jsonErr := json.Unmarshal(responseBody, &infoRequest); err != nil`:
it tests the outer `err` variable — the (necessarily nil) error of
`io.ReadAll` — not `jsonErr`, which the `errVar` binding below makes
explicit. -/
def createInfoHandleResponse (statusCode : Int)
    (readResult : Except GoError String)
    (unmarshalInfo : String → Option InfoRequest) : Except String InfoRequest :=
  match readResult with
  | .error _ => .error "failed to read response body"                 -- lines 331-333
  | .ok responseBody =>
    if statusCode ≠ 200 then .error "request failed with status"      -- lines 335-337
    else if statusCode ≠ 200 then .error "GDPR service returned error" -- lines 339-341
    else
      let errVar : Option GoError := none
      let infoRequest : InfoRequest := (unmarshalInfo responseBody).getD zeroInfoRequest
      if errVar.isSome then .error "failed to unmarshal data"         -- lines 345-347
      else .ok infoRequest                                            -- line 348

/-- The final `resp` / `err` pair of a run agrees verbatim with the outcome
of the last transport call made (`first` is the attempt index the run
started at). -/
def lastOutcomeAgrees (transport : Nat → TransportOutcome) (first : Nat)
    (R : RetryResult) : Prop :=
  match transport (first + (R.attempts - 1)) with
  | .ok r => R.resp = some r ∧ R.err = none
  | .err e => R.resp = none ∧ R.err = some e

/-- The retry band claimed by the spec for `ShouldRetry` with no transport
error: status in `[500, 599]` except exactly `501`, or exactly `429`. -/
def specRetryBand (s : Int) : Prop :=
  (500 ≤ s ∧ s ≤ 599 ∧ s ≠ 501) ∨ s = 429

/-- The retry band actually implemented: status `≥ 500` except exactly
`501` (no upper bound), or exactly `429`. -/
def codeRetryBand (s : Int) : Prop :=
  (500 ≤ s ∧ s ≠ 501) ∨ s = 429

/-- The Go clamp `if backoff > max then max else backoff` is `min`. -/
theorem goClamp_eq_min (b m : ℚ) : (if b > m then m else b) = min b m := by
  split_ifs with h
  · exact (min_eq_right h.le).symm
  · exact (min_eq_left (not_lt.mp h)).symm

/-- C1 (counterexample): at status 600 with no transport error `ShouldRetry`
returns `true`, yet 600 is outside the claimed band `[500, 599] \ {501} ∪ {429}`. -/
theorem shouldRetry_600_refutes_band :
    ShouldRetry 600 none = true ∧ ¬ specRetryBand 600 := by
  refine ⟨by decide, ?_⟩
  unfold specRetryBand
  decide

/-- C1 (amended): with no transport error, `ShouldRetry s nil` is true iff
`s ≥ 500` and `s ≠ 501`, or `s = 429` — the code places no upper bound on
the 5xx band. In particular it is true at 500, 502, 503, 504, false at 501,
and false at every 2xx, 3xx and 4xx status other than 429. -/
theorem shouldRetry_status_iff (s : Int) :
    ShouldRetry s none = true ↔ codeRetryBand s := by
  unfold ShouldRetry codeRetryBand
  have h0 : isRetryableNetErr none = false := rfl
  rw [h0]
  simp only [Bool.false_eq_true, if_false]
  split_ifs with h1 h2 <;> simp_all

/-- C8: a transport error that is a deadline-exceeded, cancellation,
connection-refused or host-resolution-failure condition makes `ShouldRetry`
return `true` for every status code. -/
theorem shouldRetry_transport_errors (s : Int) (e : GoError)
    (h : e.isDeadlineExceeded = true ∨ e.isCanceled = true ∨
      e.msg = "connection refused" ∨ e.msg = "no such host") :
    ShouldRetry s (some e) = true := by
  unfold ShouldRetry isRetryableNetErr
  rcases h with h | h | h | h <;> simp [h]

theorem shouldRetry_transport_errors_witness :
    ((⟨true, false, "ctx"⟩ : GoError).isDeadlineExceeded = true ∨
      (⟨true, false, "ctx"⟩ : GoError).isCanceled = true ∨
      (⟨true, false, "ctx"⟩ : GoError).msg = "connection refused" ∨
      (⟨true, false, "ctx"⟩ : GoError).msg = "no such host") ∧
    ShouldRetry 200 (some ⟨true, false, "ctx"⟩) = true :=
  ⟨Or.inl rfl, shouldRetry_transport_errors 200 ⟨true, false, "ctx"⟩ (Or.inl rfl)⟩

/-- C10: on a 200 response whose body fails to unmarshal into an
`InfoRequest`, `CreateInfoRequest` still returns the zero-valued
`InfoRequest` with a nil error: the guard at line 345 tests the earlier
(nil) read error instead of `jsonErr`, so the unmarshal-error branch is
unreachable. -/
theorem createInfoRequest_swallows_unmarshal_error
    (unmarshalInfo : String → Option InfoRequest) (body : String)
    (h : unmarshalInfo body = none) :
    createInfoHandleResponse 200 (.ok body) unmarshalInfo = .ok zeroInfoRequest := by
  unfold createInfoHandleResponse
  simp [h]

theorem createInfoRequest_swallows_unmarshal_error_witness :
    (fun _ : String => (none : Option InfoRequest)) "not json" = none ∧
    createInfoHandleResponse 200 (.ok "not json") (fun _ => none) = .ok zeroInfoRequest :=
  ⟨rfl, createInfoRequest_swallows_unmarshal_error (fun _ => none) "not json" rfl⟩

/-- C3 (evaluation at the failing input): with a first-attempt 501 response,
the loop closes that response's body (line 247) and then breaks and returns
that same response — the returned response's only attempt, index 0, is in
the `closed` list, contradicting the claim that the returned body was never
closed by the executor. -/
theorem doRequestWithRetry_returns_closed_body :
    doRequestWithRetry ⟨3, 100 * millisecond, 10 * second, 2, 0⟩
        (fun _ => .ok ⟨501⟩) (fun _ => 0) =
      { resp := some ⟨501⟩, err := none, waits := [], closed := [0], attempts := 1 } := by
  decide

/-- C2 (Scenario A): under policy `{maxRetries := 3, initialBackoff := 100ms,
factor := 2, maxBackoff := 10s, jitter := 0}`, with 503 on attempts 0, 1, 2
and 200 on attempt 3, the loop returns the 200 response with no error after
exactly three backoff waits of 100ms, 200ms and 400ms, in that order. -/
theorem scenarioA_backoff_run :
    doRequestWithRetry ⟨3, 100 * millisecond, 10 * second, 2, 0⟩
        (fun i => if i < 3 then .ok ⟨503⟩ else .ok ⟨200⟩) (fun _ => 0) =
      { resp := some ⟨200⟩, err := none,
        waits := [100 * millisecond, 200 * millisecond, 400 * millisecond],
        closed := [0, 1, 2], attempts := 4 } := by
  norm_num [doRequestWithRetry, doRequestWithRetryGo, ShouldRetry, isRetryableNetErr,
    calculateBackoff, millisecond, second]

/-- C4: `calculateBackoff` computes `raw = initialBackoff * factor^i`; when
`jitter > 0` it multiplies `raw` by `(1 + rj)` for the drawn value
`rj = randFloat * jitter ∈ [0, jitter]`, and the result is
`min(raw, maxBackoff)`; when `jitter ≤ 0` the result is the same clamp of
the unjittered `raw`. -/
theorem calculateBackoff_raw_jitter_clamp (pol : RetryPolicy) (r : ℚ) (i : Nat)
    (hr0 : 0 ≤ r) (hr1 : r < 1) :
    (0 < pol.Jitter →
      ∃ rj, 0 ≤ rj ∧ rj ≤ pol.Jitter ∧
        calculateBackoff pol r i =
          min (pol.InitialBackoff * pol.BackoffFactor ^ i * (1 + rj)) pol.MaxBackoff) ∧
    (¬ 0 < pol.Jitter →
      calculateBackoff pol r i =
        min (pol.InitialBackoff * pol.BackoffFactor ^ i) pol.MaxBackoff) := by
  constructor
  · intro hj
    refine ⟨r * pol.Jitter, mul_nonneg hr0 hj.le, ?_, ?_⟩
    · calc r * pol.Jitter ≤ 1 * pol.Jitter := mul_le_mul_of_nonneg_right hr1.le hj.le
        _ = pol.Jitter := one_mul _
    · simp only [calculateBackoff]
      rw [if_pos hj]
      exact goClamp_eq_min _ _
  · intro hj
    simp only [calculateBackoff]
    rw [if_neg hj]
    exact goClamp_eq_min _ _

theorem calculateBackoff_raw_jitter_clamp_witness :
    (0 ≤ (1/2 : ℚ) ∧ (1/2 : ℚ) < 1) ∧
    ((0 < (⟨3, 100, 1000, 2, 1/2⟩ : RetryPolicy).Jitter →
      ∃ rj, 0 ≤ rj ∧ rj ≤ (⟨3, 100, 1000, 2, 1/2⟩ : RetryPolicy).Jitter ∧
        calculateBackoff ⟨3, 100, 1000, 2, 1/2⟩ (1/2) 1 =
          min ((⟨3, 100, 1000, 2, 1/2⟩ : RetryPolicy).InitialBackoff *
              (⟨3, 100, 1000, 2, 1/2⟩ : RetryPolicy).BackoffFactor ^ 1 * (1 + rj))
            (⟨3, 100, 1000, 2, 1/2⟩ : RetryPolicy).MaxBackoff) ∧
      (¬ 0 < (⟨3, 100, 1000, 2, 1/2⟩ : RetryPolicy).Jitter →
        calculateBackoff ⟨3, 100, 1000, 2, 1/2⟩ (1/2) 1 =
          min ((⟨3, 100, 1000, 2, 1/2⟩ : RetryPolicy).InitialBackoff *
              (⟨3, 100, 1000, 2, 1/2⟩ : RetryPolicy).BackoffFactor ^ 1)
            (⟨3, 100, 1000, 2, 1/2⟩ : RetryPolicy).MaxBackoff)) :=
  ⟨⟨by norm_num, by norm_num⟩,
    calculateBackoff_raw_jitter_clamp ⟨3, 100, 1000, 2, 1/2⟩ (1/2) 1 (by norm_num) (by norm_num)⟩

/-- C5: for a policy with `maxRetries ≥ 0`, `initialBackoff > 0`,
`maxBackoff ≥ initialBackoff`, `backoffFactor > 1` and `jitter = 0`,
`calculateBackoff` is non-decreasing in the attempt index, never exceeds
`maxBackoff`, and is never negative. -/
theorem calculateBackoff_monotone (pol : RetryPolicy)
    (hmr : 0 ≤ pol.MaxRetries) (hib : 0 < pol.InitialBackoff)
    (hmb : pol.InitialBackoff ≤ pol.MaxBackoff) (hbf : 1 < pol.BackoffFactor)
    (hj : pol.Jitter = 0) (r r' : ℚ) (i j : Nat) (hij : i ≤ j) :
    calculateBackoff pol r i ≤ calculateBackoff pol r' j ∧
    calculateBackoff pol r i ≤ pol.MaxBackoff ∧
    0 ≤ calculateBackoff pol r i := by
  have hz : ∀ (q : ℚ) (k : Nat), calculateBackoff pol q k =
      min (pol.InitialBackoff * pol.BackoffFactor ^ k) pol.MaxBackoff := by
    intro q k
    simp only [calculateBackoff, hj]
    rw [if_neg (lt_irrefl 0)]
    exact goClamp_eq_min _ _
  have hpow : ∀ k : Nat, (0:ℚ) ≤ pol.InitialBackoff * pol.BackoffFactor ^ k := fun k =>
    mul_nonneg hib.le (pow_nonneg (by linarith) k)
  refine ⟨?_, ?_, ?_⟩
  · rw [hz, hz]
    exact min_le_min (mul_le_mul_of_nonneg_left (pow_le_pow_right₀ hbf.le hij) hib.le) le_rfl
  · rw [hz]
    exact min_le_right _ _
  · rw [hz]
    exact le_min (hpow i) (le_trans hib.le hmb)

theorem calculateBackoff_monotone_witness :
    ((0 : Int) ≤ (⟨3, 100, 1000, 2, 0⟩ : RetryPolicy).MaxRetries ∧
      0 < (⟨3, 100, 1000, 2, 0⟩ : RetryPolicy).InitialBackoff ∧
      (⟨3, 100, 1000, 2, 0⟩ : RetryPolicy).InitialBackoff ≤
        (⟨3, 100, 1000, 2, 0⟩ : RetryPolicy).MaxBackoff ∧
      1 < (⟨3, 100, 1000, 2, 0⟩ : RetryPolicy).BackoffFactor ∧
      (⟨3, 100, 1000, 2, 0⟩ : RetryPolicy).Jitter = 0 ∧ (0 : Nat) ≤ 1) ∧
    (calculateBackoff ⟨3, 100, 1000, 2, 0⟩ 0 0 ≤ calculateBackoff ⟨3, 100, 1000, 2, 0⟩ 0 1 ∧
      calculateBackoff ⟨3, 100, 1000, 2, 0⟩ 0 0 ≤ (⟨3, 100, 1000, 2, 0⟩ : RetryPolicy).MaxBackoff ∧
      0 ≤ calculateBackoff ⟨3, 100, 1000, 2, 0⟩ 0 0) :=
  ⟨⟨by norm_num, by norm_num, by norm_num, by norm_num, rfl, by norm_num⟩,
    calculateBackoff_monotone ⟨3, 100, 1000, 2, 0⟩ (by norm_num) (by norm_num) (by norm_num)
      (by norm_num) rfl 0 0 0 1 (by norm_num)⟩

/-- Loop invariant of `doRequestWithRetryGo`: started with at least one unit
of fuel and enough fuel to reach `MaxRetries`, the loop makes between 1 and
`fuel` transport calls, sleeps exactly once per non-final attempt, and its
final `resp` / `err` pair is verbatim the outcome of the last transport
call made. -/
theorem doRequestWithRetryGo_spec (pol : RetryPolicy) (transport : Nat → TransportOutcome)
    (rand : Nat → ℚ) :
    ∀ (fuel attempt : Nat), 1 ≤ fuel → pol.MaxRetries + 1 ≤ (attempt : Int) + fuel →
      1 ≤ (doRequestWithRetryGo pol transport rand attempt fuel).attempts ∧
      (doRequestWithRetryGo pol transport rand attempt fuel).attempts ≤ fuel ∧
      (doRequestWithRetryGo pol transport rand attempt fuel).waits.length + 1 =
        (doRequestWithRetryGo pol transport rand attempt fuel).attempts ∧
      lastOutcomeAgrees transport attempt (doRequestWithRetryGo pol transport rand attempt fuel) := by
  intro fuel
  induction fuel with
  | zero => intro attempt h1 _; exact absurd h1 (by omega)
  | succ f ih =>
    intro attempt _ hbound
    rcases htr : transport attempt with r | e
    · by_cases hsucc : r.statusCode < 500 ∧ r.statusCode ≠ 429
      · have hgo : doRequestWithRetryGo pol transport rand attempt (f + 1) =
            { resp := some r, err := none, waits := [], closed := [], attempts := 1 } := by
          simp only [doRequestWithRetryGo, htr]
          rw [if_pos hsucc]
        rw [hgo]
        refine ⟨le_refl 1, by dsimp only; omega, rfl, ?_⟩
        simp [lastOutcomeAgrees, htr]
      · by_cases hbreak : ShouldRetry r.statusCode none = false ∨ pol.MaxRetries ≤ (attempt : Int)
        · have hgo : doRequestWithRetryGo pol transport rand attempt (f + 1) =
              { resp := some r, err := none, waits := [], closed := [attempt], attempts := 1 } := by
            simp only [doRequestWithRetryGo, htr]
            rw [if_neg hsucc, if_pos hbreak]
          rw [hgo]
          refine ⟨le_refl 1, by dsimp only; omega, rfl, ?_⟩
          simp [lastOutcomeAgrees, htr]
        · have hlt : (attempt : Int) < pol.MaxRetries := by
            rcases not_or.mp hbreak with ⟨_, hb⟩
            omega
          have hf1 : 1 ≤ f := by omega
          have hbound' : pol.MaxRetries + 1 ≤ ((attempt + 1 : Nat) : Int) + f := by
            push_cast
            push_cast at hbound
            omega
          obtain ⟨ih1, ih2, ih3, ih4⟩ := ih (attempt + 1) hf1 hbound'
          have hgo : doRequestWithRetryGo pol transport rand attempt (f + 1) =
              { resp := (doRequestWithRetryGo pol transport rand (attempt + 1) f).resp,
                err := (doRequestWithRetryGo pol transport rand (attempt + 1) f).err,
                waits := calculateBackoff pol (rand attempt) attempt ::
                  (doRequestWithRetryGo pol transport rand (attempt + 1) f).waits,
                closed := attempt :: (doRequestWithRetryGo pol transport rand (attempt + 1) f).closed,
                attempts := (doRequestWithRetryGo pol transport rand (attempt + 1) f).attempts + 1 } := by
            simp only [doRequestWithRetryGo, htr]
            rw [if_neg hsucc, if_neg hbreak]
          rw [hgo]
          refine ⟨by dsimp only; omega, by dsimp only; omega,
            by dsimp only [List.length_cons]; omega, ?_⟩
          unfold lastOutcomeAgrees at ih4 ⊢
          have hidx : attempt + ((doRequestWithRetryGo pol transport rand (attempt + 1) f).attempts + 1 - 1) =
              (attempt + 1) + ((doRequestWithRetryGo pol transport rand (attempt + 1) f).attempts - 1) := by
            omega
          dsimp only
          rw [hidx]
          exact ih4
    · by_cases hbreak : ShouldRetry 0 (some e) = false ∨ pol.MaxRetries ≤ (attempt : Int)
      · have hgo : doRequestWithRetryGo pol transport rand attempt (f + 1) =
            { resp := none, err := some e, waits := [], closed := [], attempts := 1 } := by
          simp only [doRequestWithRetryGo, htr]
          rw [if_pos hbreak]
        rw [hgo]
        refine ⟨le_refl 1, by dsimp only; omega, rfl, ?_⟩
        simp [lastOutcomeAgrees, htr]
      · have hlt : (attempt : Int) < pol.MaxRetries := by
          rcases not_or.mp hbreak with ⟨_, hb⟩
          omega
        have hf1 : 1 ≤ f := by omega
        have hbound' : pol.MaxRetries + 1 ≤ ((attempt + 1 : Nat) : Int) + f := by
          push_cast
          push_cast at hbound
          omega
        obtain ⟨ih1, ih2, ih3, ih4⟩ := ih (attempt + 1) hf1 hbound'
        have hgo : doRequestWithRetryGo pol transport rand attempt (f + 1) =
            { resp := (doRequestWithRetryGo pol transport rand (attempt + 1) f).resp,
              err := (doRequestWithRetryGo pol transport rand (attempt + 1) f).err,
              waits := calculateBackoff pol (rand attempt) attempt ::
                (doRequestWithRetryGo pol transport rand (attempt + 1) f).waits,
              closed := (doRequestWithRetryGo pol transport rand (attempt + 1) f).closed,
              attempts := (doRequestWithRetryGo pol transport rand (attempt + 1) f).attempts + 1 } := by
          simp only [doRequestWithRetryGo, htr]
          rw [if_neg hbreak]
        rw [hgo]
        refine ⟨by dsimp only; omega, by dsimp only; omega,
            by dsimp only [List.length_cons]; omega, ?_⟩
        unfold lastOutcomeAgrees at ih4 ⊢
        have hidx : attempt + ((doRequestWithRetryGo pol transport rand (attempt + 1) f).attempts + 1 - 1) =
            (attempt + 1) + ((doRequestWithRetryGo pol transport rand (attempt + 1) f).attempts - 1) := by
          omega
        dsimp only
        rw [hidx]
        exact ih4

/-- When every transport call fails with the same retryable error, the loop
consumes all its fuel: it makes exactly `fuel` attempts, sleeps `fuel - 1`
times, closes no body, and ends with that error and no response. -/
theorem doRequestWithRetryGo_allErr (pol : RetryPolicy) (transport : Nat → TransportOutcome)
    (rand : Nat → ℚ) (e : GoError) (hret : ShouldRetry 0 (some e) = true)
    (htr : ∀ i, transport i = .err e) :
    ∀ (fuel attempt : Nat), 1 ≤ fuel → (attempt : Int) + fuel = pol.MaxRetries + 1 →
      (doRequestWithRetryGo pol transport rand attempt fuel).resp = none ∧
      (doRequestWithRetryGo pol transport rand attempt fuel).err = some e ∧
      (doRequestWithRetryGo pol transport rand attempt fuel).closed = [] ∧
      (doRequestWithRetryGo pol transport rand attempt fuel).attempts = fuel ∧
      (doRequestWithRetryGo pol transport rand attempt fuel).waits.length + 1 = fuel := by
  intro fuel
  induction fuel with
  | zero => intro attempt h1 _; exact absurd h1 (by omega)
  | succ f ih =>
    intro attempt _ heq
    by_cases hf : f = 0
    · subst hf
      have hstop : pol.MaxRetries ≤ (attempt : Int) := by
        push_cast at heq
        omega
      have hgo : doRequestWithRetryGo pol transport rand attempt 1 =
          { resp := none, err := some e, waits := [], closed := [], attempts := 1 } := by
        simp only [doRequestWithRetryGo, htr attempt]
        rw [if_pos (Or.inr hstop)]
      rw [hgo]
      exact ⟨rfl, rfl, rfl, rfl, rfl⟩
    · have hf1 : 1 ≤ f := by omega
      have heq' : ((attempt + 1 : Nat) : Int) + f = pol.MaxRetries + 1 := by
        push_cast
        push_cast at heq
        omega
      obtain ⟨ihresp, iherr, ihclosed, ihatt, ihw⟩ := ih (attempt + 1) hf1 heq'
      have hlt : (attempt : Int) < pol.MaxRetries := by
        push_cast at heq
        omega
      have hnb : ¬(ShouldRetry 0 (some e) = false ∨ pol.MaxRetries ≤ (attempt : Int)) := by
        rintro (hc | hc)
        · rw [hret] at hc
          exact Bool.noConfusion hc
        · omega
      have hgo : doRequestWithRetryGo pol transport rand attempt (f + 1) =
          { resp := (doRequestWithRetryGo pol transport rand (attempt + 1) f).resp,
            err := (doRequestWithRetryGo pol transport rand (attempt + 1) f).err,
            waits := calculateBackoff pol (rand attempt) attempt ::
              (doRequestWithRetryGo pol transport rand (attempt + 1) f).waits,
            closed := (doRequestWithRetryGo pol transport rand (attempt + 1) f).closed,
            attempts := (doRequestWithRetryGo pol transport rand (attempt + 1) f).attempts + 1 } := by
        simp only [doRequestWithRetryGo, htr attempt]
        rw [if_neg hnb]
      rw [hgo]
      refine ⟨ihresp, iherr, ihclosed, by dsimp only; omega, by dsimp only [List.length_cons]; omega⟩

/-- C6: for every policy with `maxRetries ≥ 0`, the loop's final `resp` /
`err` pair is verbatim the outcome of the last transport call made — the
last-obtained response when one exists, otherwise the last transport error,
with no wrapping; in particular a first-attempt 501 response is returned
immediately, with zero waits and a single attempt. -/
theorem doRequestWithRetry_terminal_verbatim (pol : RetryPolicy)
    (transport : Nat → TransportOutcome) (rand : Nat → ℚ)
    (hmr : 0 ≤ pol.MaxRetries) :
    lastOutcomeAgrees transport 0 (doRequestWithRetry pol transport rand) ∧
    (∀ r, transport 0 = .ok r → r.statusCode = 501 →
      doRequestWithRetry pol transport rand =
        { resp := some r, err := none, waits := [], closed := [0], attempts := 1 }) := by
  have hfuel1 : 1 ≤ (pol.MaxRetries + 1).toNat := by omega
  have hbound : pol.MaxRetries + 1 ≤ ((0 : Nat) : Int) + (pol.MaxRetries + 1).toNat := by omega
  constructor
  · exact (doRequestWithRetryGo_spec pol transport rand _ 0 hfuel1 hbound).2.2.2
  · intro r htr h501
    obtain ⟨k, hk⟩ : ∃ k, (pol.MaxRetries + 1).toNat = k + 1 :=
      ⟨(pol.MaxRetries + 1).toNat - 1, by omega⟩
    have hnsucc : ¬(r.statusCode < 500 ∧ r.statusCode ≠ 429) := by
      rw [h501]
      decide
    have hsr : ShouldRetry r.statusCode none = false := by
      rw [h501]
      decide
    unfold doRequestWithRetry
    rw [hk]
    simp only [doRequestWithRetryGo, htr]
    rw [if_neg hnsucc, if_pos (Or.inl hsr)]

theorem doRequestWithRetry_terminal_verbatim_witness :
    (0 : Int) ≤ (⟨3, 100, 1000, 2, 0⟩ : RetryPolicy).MaxRetries ∧
    (lastOutcomeAgrees (fun _ => .ok ⟨501⟩) 0
        (doRequestWithRetry ⟨3, 100, 1000, 2, 0⟩ (fun _ => .ok ⟨501⟩) (fun _ => 0)) ∧
      (∀ r, (fun _ : Nat => TransportOutcome.ok ⟨501⟩) 0 = .ok r → r.statusCode = 501 →
        doRequestWithRetry ⟨3, 100, 1000, 2, 0⟩ (fun _ => .ok ⟨501⟩) (fun _ => 0) =
          { resp := some r, err := none, waits := [], closed := [0], attempts := 1 })) :=
  ⟨by decide,
    doRequestWithRetry_terminal_verbatim ⟨3, 100, 1000, 2, 0⟩ (fun _ => .ok ⟨501⟩)
      (fun _ => 0) (by decide)⟩

/-- C7: for every policy with `maxRetries ≥ 0`, the loop makes at most
`maxRetries + 1` transport calls (and, being a total function, always
terminates); with `maxRetries = 0` a first-attempt 429 response is returned
immediately with no wait and a single attempt; and when every attempt fails
with a connection-refused transport error, the loop returns that final
transport error (and no response) after exactly `maxRetries` backoff
waits. -/
theorem doRequestWithRetry_attempt_bound (pol : RetryPolicy)
    (transport : Nat → TransportOutcome) (rand : Nat → ℚ)
    (hmr : 0 ≤ pol.MaxRetries) :
    ((doRequestWithRetry pol transport rand).attempts : Int) ≤ pol.MaxRetries + 1 ∧
    (pol.MaxRetries = 0 → ∀ r, transport 0 = .ok r → r.statusCode = 429 →
      doRequestWithRetry pol transport rand =
        { resp := some r, err := none, waits := [], closed := [0], attempts := 1 }) ∧
    ((∀ i, transport i = .err connectionRefused) →
      (doRequestWithRetry pol transport rand).resp = none ∧
      (doRequestWithRetry pol transport rand).err = some connectionRefused ∧
      ((doRequestWithRetry pol transport rand).waits.length : Int) = pol.MaxRetries) := by
  have hfuel1 : 1 ≤ (pol.MaxRetries + 1).toNat := by omega
  have hbound : pol.MaxRetries + 1 ≤ ((0 : Nat) : Int) + (pol.MaxRetries + 1).toNat := by omega
  refine ⟨?_, ?_, ?_⟩
  · have hle := (doRequestWithRetryGo_spec pol transport rand _ 0 hfuel1 hbound).2.1
    unfold doRequestWithRetry
    omega
  · intro hM r htr h429
    have hnsucc : ¬(r.statusCode < 500 ∧ r.statusCode ≠ 429) := by
      rw [h429]
      decide
    unfold doRequestWithRetry
    rw [hM]
    have h1 : ((0 : Int) + 1).toNat = 0 + 1 := rfl
    rw [h1]
    simp only [doRequestWithRetryGo, htr]
    rw [if_neg hnsucc, if_pos (Or.inr (by omega))]
  · intro htr
    have heq : ((0 : Nat) : Int) + (pol.MaxRetries + 1).toNat = pol.MaxRetries + 1 := by omega
    obtain ⟨hresp, herr, hclosed, hatt, hw⟩ :=
      doRequestWithRetryGo_allErr pol transport rand connectionRefused (by decide) htr
        _ 0 hfuel1 heq
    unfold doRequestWithRetry
    exact ⟨hresp, herr, by omega⟩

theorem doRequestWithRetry_attempt_bound_witness :
    (0 : Int) ≤ (⟨0, 100, 1000, 2, 0⟩ : RetryPolicy).MaxRetries ∧
    (((doRequestWithRetry ⟨0, 100, 1000, 2, 0⟩ (fun _ => .ok ⟨429⟩) (fun _ => 0)).attempts : Int) ≤
        (⟨0, 100, 1000, 2, 0⟩ : RetryPolicy).MaxRetries + 1 ∧
      ((⟨0, 100, 1000, 2, 0⟩ : RetryPolicy).MaxRetries = 0 →
        ∀ r, (fun _ : Nat => TransportOutcome.ok ⟨429⟩) 0 = .ok r → r.statusCode = 429 →
          doRequestWithRetry ⟨0, 100, 1000, 2, 0⟩ (fun _ => .ok ⟨429⟩) (fun _ => 0) =
            { resp := some r, err := none, waits := [], closed := [0], attempts := 1 }) ∧
      ((∀ i, (fun _ : Nat => TransportOutcome.ok ⟨429⟩) i = .err connectionRefused) →
        (doRequestWithRetry ⟨0, 100, 1000, 2, 0⟩ (fun _ => .ok ⟨429⟩) (fun _ => 0)).resp = none ∧
        (doRequestWithRetry ⟨0, 100, 1000, 2, 0⟩ (fun _ => .ok ⟨429⟩) (fun _ => 0)).err =
          some connectionRefused ∧
        ((doRequestWithRetry ⟨0, 100, 1000, 2, 0⟩ (fun _ => .ok ⟨429⟩)
            (fun _ => 0)).waits.length : Int) = (⟨0, 100, 1000, 2, 0⟩ : RetryPolicy).MaxRetries)) :=
  ⟨by decide,
    doRequestWithRetry_attempt_bound ⟨0, 100, 1000, 2, 0⟩ (fun _ => .ok ⟨429⟩)
      (fun _ => 0) (by decide)⟩

/-- C9: `FetchDeleteRequest` and `UpdateDeleteRequest` issue their request
with a single direct `httpClient.Do` call: for every policy and every
transport outcome they make exactly one attempt and sleep no backoff wait,
while every other CRUD operation of the client sends through
`doRequestWithRetry`. -/
theorem deleteOps_bypass_retry (pol : RetryPolicy) (transport : Nat → TransportOutcome)
    (rand : Nat → ℚ) :
    sendRequest .fetchDeleteRequest pol transport rand = httpClientDo transport ∧
    sendRequest .updateDeleteRequest pol transport rand = httpClientDo transport ∧
    (sendRequest .fetchDeleteRequest pol transport rand).attempts = 1 ∧
    (sendRequest .fetchDeleteRequest pol transport rand).waits = [] ∧
    (sendRequest .updateDeleteRequest pol transport rand).attempts = 1 ∧
    (sendRequest .updateDeleteRequest pol transport rand).waits = [] ∧
    (∀ op : ClientOp, op ≠ .fetchDeleteRequest → op ≠ .updateDeleteRequest →
      sendRequest op pol transport rand = doRequestWithRetry pol transport rand) := by
  have hdo : (httpClientDo transport).attempts = 1 ∧ (httpClientDo transport).waits = [] := by
    rcases htr : transport 0 with r | e <;> simp [httpClientDo, htr]
  refine ⟨rfl, rfl, hdo.1, hdo.2, hdo.1, hdo.2, ?_⟩
  intro op h1 h2
  cases op <;> first | rfl | exact absurd rfl h1 | exact absurd rfl h2

theorem deleteOps_bypass_retry_witness :
    (ClientOp.createInfoRequest ≠ ClientOp.fetchDeleteRequest ∧
      ClientOp.createInfoRequest ≠ ClientOp.updateDeleteRequest) ∧
    sendRequest .createInfoRequest ⟨1, 100, 1000, 2, 0⟩ (fun _ => .ok ⟨200⟩) (fun _ => 0) =
      doRequestWithRetry ⟨1, 100, 1000, 2, 0⟩ (fun _ => .ok ⟨200⟩) (fun _ => 0) :=
  ⟨⟨by decide, by decide⟩,
    (deleteOps_bypass_retry ⟨1, 100, 1000, 2, 0⟩ (fun _ => .ok ⟨200⟩) (fun _ => 0)).2.2.2.2.2.2
      .createInfoRequest (by decide) (by decide)⟩
